import Mathlib

/-
  Verification of the Med-Q intake dialogue controller
  (server/app/services/ai_service.py), shallowly embedded in Lean 4.

  Python strings are modelled as Lean `String`; `str.lower`/`str.strip`
  and substring containment (`in`) are embedded below.  The external AI
  completion call is modelled as an `Except Unit String` input (ok =
  reply text, error = any API failure).  The current wall-clock string
  produced by `datetime.now().strftime(...)` is an explicit parameter.
-/

namespace MedQ

/-- ASCII whitespace characters removed by Python `str.strip()`. -/
def isSpaceChar (c : Char) : Bool :=
  c = ' ' || c = '\t' || c = '\n' || c = '\r' || c = '\x0b' || c = '\x0c'

/-- Embedding of Python `str.lower` on character lists (ASCII). -/
def pyLowerL (l : List Char) : List Char := l.map Char.toLower

/-- Embedding of Python `str.strip()` on character lists. -/
def pyStripL (l : List Char) : List Char :=
  ((l.dropWhile isSpaceChar).reverse.dropWhile isSpaceChar).reverse

def pyLower (s : String) : String := ⟨pyLowerL s.data⟩

def pyStrip (s : String) : String := ⟨pyStripL s.data⟩

/-- Embedding of Python `message.lower().strip()`. -/
def pyLowerStrip (s : String) : String := pyStrip (pyLower s)

/-- Embedding of Python substring containment (`needle in hay`). -/
def containsL (needle : List Char) : List Char → Bool
  | [] => needle.isEmpty
  | c :: rest => needle.isPrefixOf (c :: rest) || containsL needle rest

def pyIn (needle hay : String) : Bool := containsL needle.data hay.data

/-- First maximal run of decimal digits, as produced by
`re.findall(r'\d+', message)[0]` when it exists. -/
def firstDigitRunL : List Char → Option (List Char)
  | [] => none
  | c :: rest =>
    if c.isDigit then some (c :: rest.takeWhile Char.isDigit)
    else firstDigitRunL rest

def digitsVal (l : List Char) : Int :=
  l.foldl (fun a c => a * 10 + ((c.toNat : Int) - 48)) 0

def firstDigitRunInt (s : String) : Option Int :=
  (firstDigitRunL s.data).map digitsVal

/-- Severity enum from app/models/pydantic_models.py. -/
inductive Severity
  | mild
  | moderate
  | severe
  deriving DecidableEq

/-- IntakeData from app/models/pydantic_models.py: all data fields optional,
plus the caller-supplied current step string. -/
structure IntakeData where
  name : Option String := none
  age : Option Int := none
  gender : Option String := none
  symptoms : Option String := none
  duration : Option String := none
  allergies : Option String := none
  medications : Option String := none
  current_step : String
  deriving DecidableEq

/-- Result dict of `AIService._smart_extract_data`: a partial field update.
A `some` field corresponds to the key being present in the Python dict;
`is_greeting` is present (True) exactly when the flag field is `true`. -/
structure ExtractionResult where
  name : Option String := none
  age : Option Int := none
  gender : Option String := none
  symptoms : Option String := none
  duration : Option String := none
  medications : Option String := none
  allergies : Option String := none
  is_greeting : Bool := false
  deriving DecidableEq

def emptyExtraction : ExtractionResult := {}

/-- The merged dict `{**current_data.dict(), **extracted_data}` built in
`process_intake_message`: every IntakeData key (including `current_step`)
plus the optional `is_greeting` marker. -/
structure MergedData where
  name : Option String
  age : Option Int
  gender : Option String
  symptoms : Option String
  duration : Option String
  allergies : Option String
  medications : Option String
  current_step : String
  is_greeting : Bool
  deriving DecidableEq

/-- Python truthiness of an optional string (`data.get(k)` in a boolean
context): absent, None and "" are falsy. -/
def truthyStr : Option String → Bool
  | none => false
  | some s => s != ""

/-- Python truthiness of an optional int: absent, None and 0 are falsy. -/
def truthyInt : Option Int → Bool
  | none => false
  | some n => n != 0

/-- Python `x or dflt` for an optional string. -/
def pyOrS (o : Option String) (dflt : String) : String :=
  match o with
  | some s => if s = "" then dflt else s
  | none => dflt

/-- Python `x or dflt` where a truthy int is formatted into an f-string. -/
def pyOrIntS (o : Option Int) (dflt : String) : String :=
  match o with
  | some n => if n = 0 then dflt else toString n
  | none => dflt

/-- Greeting set handled at the `name` step (ai_service.py line 439). -/
def greetingSet : List String :=
  ["hi", "hello", "hey", "good morning", "good afternoon", "good evening"]

def maleWords : List String := ["male", "man", "boy", "mail", "mal", "m"]

def femaleWords : List String := ["female", "woman", "girl"]

def otherGenderWords : List String := ["other", "non-binary", "prefer not"]

def durationUnitWords : List String := ["day", "week", "month", "year", "hour"]

def negativeSentinels : List String := ["none", "no", "nothing", "n/a"]

/-- `AIService._smart_extract_data` (ai_service.py lines 433-494). -/
def smart_extract_data (message : String) (current_step : String) : ExtractionResult :=
  let message_lower := pyLowerStrip message
  if current_step = "name" then
    if message_lower ∈ greetingSet then { is_greeting := true }
    else { name := some (pyStrip message) }
  else if current_step = "age" then
    match firstDigitRunInt message with
    | some n => if 1 ≤ n ∧ n ≤ 150 then { age := some n } else {}
    | none => {}
  else if current_step = "gender" then
    if maleWords.any (fun w => pyIn w message_lower) then { gender := some "male" }
    else if femaleWords.any (fun w => pyIn w message_lower) then { gender := some "female" }
    else if otherGenderWords.any (fun w => pyIn w message_lower) then { gender := some "other" }
    else {}
  else if current_step = "symptoms" then
    if message_lower ∉ (["", "none", "nothing"] : List String) then
      { symptoms := some (pyStrip message) }
    else {}
  else if current_step = "duration" then
    if message_lower ∉ (["", "none"] : List String) then
      let duration := pyStrip message
      if durationUnitWords.any (fun w => pyIn w message_lower) then
        { duration := some duration }
      else if message.data.any Char.isDigit then
        { duration := some (duration ++ " days") }
      else {}
    else {}
  else if current_step = "medications" then
    if message_lower ∈ negativeSentinels then { medications := some "none" }
    else if message_lower ≠ "" then { medications := some (pyStrip message) }
    else {}
  else if current_step = "allergies" then
    if message_lower ∈ negativeSentinels then { allergies := some "none" }
    else if message_lower ≠ "" then { allergies := some (pyStrip message) }
    else {}
  else {}

/-- `AIService._determine_next_step_from_data` (ai_service.py lines 496-517). -/
def determine_next_step_from_data (data : MergedData) : String :=
  if data.is_greeting then "name"
  else if !truthyStr data.name then "name"
  else if !truthyInt data.age then "age"
  else if !truthyStr data.gender then "gender"
  else if !truthyStr data.symptoms then "symptoms"
  else if !truthyStr data.duration then "duration"
  else if !truthyStr data.medications then "medications"
  else if !truthyStr data.allergies then "allergies"
  else "summary"

/-- The fixed intake field order (spec section 4.2). -/
def stepOrder : List String :=
  ["name", "age", "gender", "symptoms", "duration", "medications", "allergies"]

/-- Truthiness of the field named `f` in the merged dict. -/
def fieldTruthy (data : MergedData) : String → Bool
  | "name" => truthyStr data.name
  | "age" => truthyInt data.age
  | "gender" => truthyStr data.gender
  | "symptoms" => truthyStr data.symptoms
  | "duration" => truthyStr data.duration
  | "medications" => truthyStr data.medications
  | "allergies" => truthyStr data.allergies
  | _ => false

/-- Spec-side step resolver, following the spec words: if the greeting
marker is present force `name`; else walk the fixed field order and
return the first unset field; if all are set return `summary`. -/
def spec_next_step (data : MergedData) : String :=
  if data.is_greeting then "name"
  else
    match stepOrder.find? (fun f => !(fieldTruthy data f)) with
    | some f => f
    | none => "summary"

/-- Fixed welcome-and-ask-name template returned by the fallback generator
when the greeting marker is set (ai_service.py lines 395-399). -/
def welcome_template : String :=
  "Hello! I\x27m Dr. Sarah, your AI medical assistant. I\x27m here to help gather some information before your consultation to ensure your healthcare provider can give you the best possible care.\n\nI\x27ll ask you a few questions to understand your situation better. This is completely confidential and will help make your appointment more efficient.\n\nLet\x27s start - could you please tell me your name?"

/-- The `responses` table of `_get_enhanced_contextual_response`, keyed by
`next_step`, with the `.get` default for unknown keys (lines 402-423). -/
def enhanced_response_table (next_step : String) (extracted : ExtractionResult) : String :=
  if next_step = "name" then
    "Hello! I\x27m Dr. Sarah, your AI medical assistant. I\x27m here to help gather some information before your consultation. Let\x27s start - could you please tell me your name?"
  else if next_step = "age" then
    "Thank you, " ++ (Option.getD extracted.name "") ++ ". It\x27s good to meet you! I\x27ll be guiding you through some questions to help prepare for your healthcare consultation.\n\nCould you please tell me your age?"
  else if next_step = "gender" then
    "Thank you for sharing that. Now, to help me understand your medical profile better, what\x27s your gender? You can say male, female, or other."
  else if next_step = "symptoms" then
    "Perfect, thank you. Now, I\x27d like to understand what brought you here today. Could you describe your main symptoms or health concerns? Please take your time and share as much detail as you\x27re comfortable with."
  else if next_step = "duration" then
    "I understand you\x27re experiencing " ++ (Option.getD extracted.symptoms "these symptoms") ++ ". That must be concerning for you.\n\nTo help your healthcare provider understand the timeline, how long have you been experiencing these symptoms?"
  else if next_step = "medications" then
    "Thank you for that information. Knowing the timeline helps a lot.\n\nNow, are you currently taking any medications? This includes prescription medications, over-the-counter drugs, vitamins, or supplements. If you\x27re not taking anything, just say \x27none\x27."
  else if next_step = "allergies" then
    "I\x27ve noted that information about your medications.\n\nLastly, do you have any allergies I should know about? This includes food allergies, drug allergies, or environmental allergies. If you don\x27t have any, just say \x27none\x27."
  else if next_step = "summary" then
    "Perfect! Thank you for providing all that information. You\x27ve been very thorough.\n\nI now have everything I need to create a comprehensive summary for your healthcare provider. This will help them understand your situation quickly and focus on addressing your concerns.\n\nWould you like me to generate your medical summary now?"
  else if next_step = "complete" then
    "Thank you for using our medical intake system. I hope this helps make your consultation more effective!"
  else
    "Thank you for that information. Let me know if you have any questions about the next step in your intake process."

/-- `AIService._get_enhanced_contextual_response` (ai_service.py lines
390-431).  The function returns at line 423; the disclaimer-appending
block at lines 425-431 sits after that unconditional return and is
unreachable, so it does not appear in the embedding. -/
def get_enhanced_contextual_response (message : String) (current_data : IntakeData)
    (next_step : String) (extracted : ExtractionResult) : String :=
  if extracted.is_greeting then welcome_template
  else enhanced_response_table next_step extracted

/-- The fixed disclaimer sentence appended to AI replies
(ai_service.py lines 163 and 380; the leading glyphs reproduce the
mojibake stored in the source file). -/
def disclaimer_suffix : String :=
  "\n\n\u00e2\u0161\u00a0\u00ef\u00b8 **Important:** This is not a diagnosis. Please consult a licensed medical professional for proper care."

def medical_words : List String := ["symptom", "pain", "medical", "health", "condition"]

/-- Post-processing of a successful AI reply inside
`_get_intelligent_intake_response` (ai_service.py lines 377-381): the
disclaimer is appended only when the reply mentions a medical word and
carries neither "not a diagnosis" nor "consult". -/
def intake_disclaimer_post (t : String) : String :=
  if medical_words.any (fun w => pyIn w (pyLower t)) then
    if !(pyIn "not a diagnosis" (pyLower t)) && !(pyIn "consult" (pyLower t)) then
      t ++ disclaimer_suffix
    else t
  else t

/-- Post-processing of a successful AI reply inside
`intelligent_medical_conversation` (ai_service.py lines 161-163):
unconditional append when neither phrase occurs. -/
def conversation_disclaimer_post (t : String) : String :=
  if !(pyIn "not a diagnosis" (pyLower t)) && !(pyIn "consult" (pyLower t)) then
    t ++ disclaimer_suffix
  else t

/-- `AIService._get_intelligent_intake_response` (ai_service.py lines
333-388), with the AI completion call abstracted as an `Except` input:
on success the stripped reply is post-processed, on any API error the
enhanced contextual fallback is used. -/
def get_intelligent_intake_response (ai : Except Unit String) (message : String)
    (current_data : IntakeData) (next_step : String) (extracted : ExtractionResult) : String :=
  match ai with
  | .ok raw => intake_disclaimer_post (pyStrip raw)
  | .error _ => get_enhanced_contextual_response message current_data next_step extracted

/-- Emergency keyword list (ai_service.py lines 289-294). -/
def emergency_keywords : List String :=
  ["chest pain", "difficulty breathing", "can\x27t breathe", "unconscious",
   "bleeding heavily", "severe bleeding", "heart attack", "stroke",
   "difficulty speaking", "weakness on one side", "severe headache",
   "sudden vision loss", "severe abdominal pain", "choking"]

/-- `any(keyword in message.lower() for keyword in emergency_keywords)`
(ai_service.py line 296). -/
def emergencyCheck (message : String) : Bool :=
  emergency_keywords.any (fun k => pyIn k (pyLower message))

/-- The fixed emergency-alert template echoing the lower-cased message
(ai_service.py lines 299-305; the glyphs reproduce the mojibake stored
in the source file). -/
def emergency_template (message : String) : String :=
  "\u00f0\u0178\u0161\u00a8 **EMERGENCY ALERT** \u00f0\u0178\u0161\u00a8\n\nBased on your symptoms, you should seek IMMEDIATE medical attention. Please go to the nearest emergency room or call emergency services right away.\n\nIf you\x27re experiencing " ++ (pyLower message) ++ ", this could be a serious medical emergency that requires immediate professional care.\n\n\u00e2\u0161\u00a0\u00ef\u00b8 **Important:** This is not a diagnosis. Please consult a licensed medical professional for proper care."

/-- Dict merge `{**current_data.dict(), **extracted_data}`: a key present
in the extraction (a `some` field) overrides the current value. -/
def mergeData (current : IntakeData) (extracted : ExtractionResult) : MergedData :=
  { name := match extracted.name with | some v => some v | none => current.name
    age := match extracted.age with | some v => some v | none => current.age
    gender := match extracted.gender with | some v => some v | none => current.gender
    symptoms := match extracted.symptoms with | some v => some v | none => current.symptoms
    duration := match extracted.duration with | some v => some v | none => current.duration
    allergies := match extracted.allergies with | some v => some v | none => current.allergies
    medications := match extracted.medications with | some v => some v | none => current.medications
    current_step := current.current_step
    is_greeting := extracted.is_greeting }

/-- Result of one intake turn.  In the Python dict the `is_emergency` key
is present (True) only in the emergency branch; absence is modelled as
`false`. -/
structure TurnResult where
  response : String
  extracted_data : ExtractionResult
  next_step : String
  is_emergency : Bool
  deriving DecidableEq

/-- The dict comprehension stripping the internal `is_greeting` flag from
the extraction before it is returned (ai_service.py line 325). -/
def cleanExtraction (e : ExtractionResult) : ExtractionResult :=
  { e with is_greeting := false }

/-- `AIService.process_intake_message` (ai_service.py lines 264-331).
The AI completion call is abstracted as the `ai` input; the conversation
history only feeds the abstracted AI prompt and is omitted.  Note the
order of the source: extraction and step resolution run first, then the
emergency check; the emergency branch returns the raw extraction dict
(greeting marker included), the normal branch the cleaned one. -/
def process_intake_message (ai : Except Unit String) (message : String)
    (current_data : IntakeData) : TurnResult :=
  let extracted := smart_extract_data message current_data.current_step
  let updated := mergeData current_data extracted
  let next_step := determine_next_step_from_data updated
  if emergencyCheck message then
    { response := emergency_template message
      extracted_data := extracted
      next_step := next_step
      is_emergency := true }
  else
    { response := get_intelligent_intake_response ai message current_data next_step extracted
      extracted_data := cleanExtraction extracted
      next_step := next_step
      is_emergency := false }

/-- StructuredData from app/models/pydantic_models.py. -/
structure StructuredData where
  chief_complaint : String
  symptoms : List String
  duration : String
  severity : Severity
  associated_symptoms : List String
  medical_history : String
  current_medications : List String
  allergies : List String
  recommendations : List String
  deriving DecidableEq

/-- MedicalSummaryResponse from app/models/pydantic_models.py;
`created_at = datetime.now()` is modelled as the clock string input. -/
structure MedicalSummaryResponse where
  id : Int
  patient_id : Int
  summary_text : String
  structured_data : StructuredData
  icd_codes : List String
  created_at : String
  deriving DecidableEq

/-- `AIService._assess_severity` (ai_service.py lines 905-921). -/
def assess_severity (symptoms duration : Option String) : Severity :=
  match symptoms with
  | none => .moderate
  | some s =>
    if s = "" then .moderate
    else
      let symptoms_lower := pyLower s
      let duration_lower := pyLower (pyOrS duration "")
      if (["chest pain", "difficulty breathing", "severe pain", "blood",
           "fever over 101", "vomiting"] : List String).any
          (fun w => pyIn w symptoms_lower) then .severe
      else if (["mild", "slight", "minor"] : List String).any
              (fun w => pyIn w symptoms_lower)
           || (["few hours", "today", "1 day"] : List String).any
              (fun w => pyIn w duration_lower) then .mild
      else .moderate

/-- `AIService._generate_intelligent_recommendations` (ai_service.py
lines 923-965). -/
def generate_intelligent_recommendations (d : IntakeData) : List String :=
  let symptoms := pyLower (pyOrS d.symptoms "")
  let r0 : List String := []
  let r1 :=
    if (["cold", "cough", "congestion", "runny nose"] : List String).any
        (fun w => pyIn w symptoms) then
      r0 ++ ["Stay hydrated - drink plenty of fluids",
             "Use a humidifier or breathe steam from hot shower",
             "Consider over-the-counter decongestants if needed",
             "Get adequate rest (7-9 hours of sleep)",
             "Avoid smoking and secondhand smoke"]
    else r0
  let r2 :=
    if pyIn "fever" symptoms then
      r1 ++ ["Monitor temperature regularly",
             "Use fever reducers as directed (acetaminophen or ibuprofen)",
             "Stay hydrated with clear fluids",
             "Rest and avoid strenuous activities"]
    else r1
  let r3 :=
    if pyIn "headache" symptoms then
      r2 ++ ["Apply cold or warm compress to head/neck",
             "Stay hydrated",
             "Consider over-the-counter pain relievers",
             "Rest in a quiet, dark room"]
    else r2
  r3 ++ ["Follow up with primary care physician within 3-5 days",
         "Return if symptoms worsen or new symptoms develop",
         "Monitor for red flag symptoms requiring immediate care"]

/-- The canned assessment quintuple returned by
`_get_intelligent_assessment`. -/
structure Assessment where
  description : String
  diagnosis : String
  follow_up_timeline : String
  expected_improvement : String
  additional_notes : String
  deriving DecidableEq

/-- `AIService._get_intelligent_assessment` (ai_service.py lines 967-1000);
`symptoms` and `duration` arrive already lower-cased, `age` is unused by
the source body but kept for signature fidelity. -/
def get_intelligent_assessment (symptoms : String) (age : Int) (duration : String) :
    Assessment :=
  if pyIn "cold" symptoms && pyIn "cough" symptoms then
    { description := "This appears to be consistent with an upper respiratory tract infection (common cold)."
      diagnosis := "Likely viral upper respiratory infection (common cold) based on symptom presentation and duration."
      follow_up_timeline := "3-5 days if symptoms persist or worsen"
      expected_improvement := "Symptoms typically improve within 7-10 days"
      additional_notes := "Viral infections are self-limiting but symptom management is important for comfort." }
  else if pyIn "fever" symptoms then
    { description := "Patient presents with fever which may indicate an infectious process."
      diagnosis := "Febrile illness - requires further evaluation to determine underlying cause."
      follow_up_timeline := "24-48 hours if fever persists"
      expected_improvement := "Depends on underlying cause"
      additional_notes := "Monitor temperature and associated symptoms closely." }
  else if pyIn "headache" symptoms then
    { description := "Patient reports headache which could be tension-type or other etiology."
      diagnosis := "Headache - likely tension-type based on presentation."
      follow_up_timeline := "1 week if headaches persist or worsen"
      expected_improvement := "Should improve with rest and appropriate treatment"
      additional_notes := "Consider triggers such as stress, dehydration, or sleep deprivation." }
  else
    { description := "Patient presents with symptoms requiring clinical evaluation."
      diagnosis := "Symptoms require further assessment for proper diagnosis."
      follow_up_timeline := "3-5 days"
      expected_improvement := "Variable depending on underlying condition"
      additional_notes := "Comprehensive evaluation recommended." }

/-- `AIService._get_medication_recommendations` (ai_service.py lines
1002-1031); the triple-quoted literals carry the mojibake bullet glyphs
of the source and are stripped as in the source. -/
def get_medication_recommendations (symptoms : String) (age : Int) : String :=
  if pyIn "cold" symptoms && pyIn "cough" symptoms then
    if age ≥ 18 then
      pyStrip "\n\u00e2\u20ac\u00a2 Acetaminophen 650mg every 6 hours for aches and fever (max 3000mg/day)\n\u00e2\u20ac\u00a2 Ibuprofen 400mg every 6-8 hours for inflammation and pain (max 1200mg/day)\n\u00e2\u20ac\u00a2 Pseudoephedrine 30mg every 6 hours for nasal congestion (if no contraindications)\n\u00e2\u20ac\u00a2 Dextromethorphan 15mg every 4 hours for dry cough\n\u00e2\u20ac\u00a2 Guaifenesin 200-400mg every 4 hours for productive cough\n\u00e2\u20ac\u00a2 Lozenges or throat sprays for sore throat\n                "
    else
      "Age-appropriate pediatric formulations of acetaminophen or ibuprofen as directed by weight/age charts."
  else if pyIn "fever" symptoms then
    pyStrip "\n\u00e2\u20ac\u00a2 Acetaminophen 650mg every 6 hours (max 3000mg/day)\n\u00e2\u20ac\u00a2 Ibuprofen 400mg every 6-8 hours (max 1200mg/day)\n\u00e2\u20ac\u00a2 Alternate between acetaminophen and ibuprofen if needed\n            "
  else if pyIn "headache" symptoms then
    pyStrip "\n\u00e2\u20ac\u00a2 Acetaminophen 650mg every 6 hours (max 3000mg/day)\n\u00e2\u20ac\u00a2 Ibuprofen 400mg every 6-8 hours (max 1200mg/day)\n\u00e2\u20ac\u00a2 Aspirin 500mg every 4-6 hours (if no contraindications)\n            "
  else
    "Consult healthcare provider for appropriate medication recommendations."

/-- `AIService._get_home_remedies` (ai_service.py lines 1033-1065). -/
def get_home_remedies (symptoms : String) : String :=
  if pyIn "cold" symptoms && pyIn "cough" symptoms then
    pyStrip "\n\u00e2\u20ac\u00a2 Honey and warm water for cough (1-2 teaspoons of honey in warm water)\n\u00e2\u20ac\u00a2 Steam inhalation 2-3 times daily\n\u00e2\u20ac\u00a2 Warm salt water gargles (1/2 teaspoon salt in warm water)\n\u00e2\u20ac\u00a2 Increase fluid intake (water, herbal teas, clear broths)\n\u00e2\u20ac\u00a2 Use a humidifier or vaporizer\n\u00e2\u20ac\u00a2 Elevate head while sleeping\n\u00e2\u20ac\u00a2 Avoid dairy products which may increase mucus production\n            "
  else if pyIn "fever" symptoms then
    pyStrip "\n\u00e2\u20ac\u00a2 Cool compresses on forehead and wrists\n\u00e2\u20ac\u00a2 Lukewarm baths or showers\n\u00e2\u20ac\u00a2 Light, breathable clothing\n\u00e2\u20ac\u00a2 Increased fluid intake\n\u00e2\u20ac\u00a2 Rest in a cool environment\n            "
  else if pyIn "headache" symptoms then
    pyStrip "\n\u00e2\u20ac\u00a2 Apply cold compress to forehead for 15-20 minutes\n\u00e2\u20ac\u00a2 Gentle neck and shoulder massage\n\u00e2\u20ac\u00a2 Rest in quiet, dark room\n\u00e2\u20ac\u00a2 Stay hydrated\n\u00e2\u20ac\u00a2 Practice relaxation techniques\n\u00e2\u20ac\u00a2 Regular sleep schedule\n            "
  else
    "Rest, hydration, and monitoring of symptoms."

/-- `AIService._get_red_flag_symptoms` (ai_service.py lines 1067-1114). -/
def get_red_flag_symptoms (symptoms : String) : String :=
  if pyIn "cold" symptoms && pyIn "cough" symptoms then
    pyStrip "\nSEEK IMMEDIATE MEDICAL ATTENTION IF:\n\u00e2\u20ac\u00a2 Difficulty breathing or shortness of breath\n\u00e2\u20ac\u00a2 Chest pain or pressure\n\u00e2\u20ac\u00a2 High fever (>101.5\u00c2\u00b0F/38.6\u00c2\u00b0C) for more than 3 days\n\u00e2\u20ac\u00a2 Coughing up blood or pink-tinged sputum\n\u00e2\u20ac\u00a2 Severe headache with neck stiffness\n\u00e2\u20ac\u00a2 Persistent vomiting\n\u00e2\u20ac\u00a2 Signs of dehydration\n\u00e2\u20ac\u00a2 Symptoms significantly worsen after initial improvement\n            "
  else if pyIn "fever" symptoms then
    pyStrip "\nSEEK IMMEDIATE MEDICAL ATTENTION IF:\n\u00e2\u20ac\u00a2 Temperature >103\u00c2\u00b0F (39.4\u00c2\u00b0C)\n\u00e2\u20ac\u00a2 Difficulty breathing\n\u00e2\u20ac\u00a2 Severe headache with neck stiffness\n\u00e2\u20ac\u00a2 Persistent vomiting\n\u00e2\u20ac\u00a2 Signs of dehydration\n\u00e2\u20ac\u00a2 Confusion or altered mental state\n\u00e2\u20ac\u00a2 Chest pain\n            "
  else if pyIn "headache" symptoms then
    pyStrip "\nSEEK IMMEDIATE MEDICAL ATTENTION IF:\n\u00e2\u20ac\u00a2 Sudden, severe headache (\"worst headache of life\")\n\u00e2\u20ac\u00a2 Headache with fever and neck stiffness\n\u00e2\u20ac\u00a2 Headache with vision changes\n\u00e2\u20ac\u00a2 Headache with confusion or altered mental state\n\u00e2\u20ac\u00a2 Headache after head injury\n\u00e2\u20ac\u00a2 Progressively worsening headache\n            "
  else
    pyStrip "\nSEEK IMMEDIATE MEDICAL ATTENTION IF:\n\u00e2\u20ac\u00a2 Severe or worsening symptoms\n\u00e2\u20ac\u00a2 Difficulty breathing\n\u00e2\u20ac\u00a2 Chest pain\n\u00e2\u20ac\u00a2 High fever\n\u00e2\u20ac\u00a2 Severe headache\n\u00e2\u20ac\u00a2 Persistent vomiting\n\u00e2\u20ac\u00a2 Signs of dehydration\n        "

/-- `AIService._generate_intelligent_fallback_summary` (ai_service.py
lines 851-903); `now` stands for `datetime.now().strftime('%Y-%m-%d %H:%M')`
and the assembled f-string is stripped as in the source. -/
def generate_intelligent_fallback_summary (d : IntakeData) (now : String) : String :=
  let symptoms := pyLower (pyOrS d.symptoms "")
  let age : Int := d.age.getD 0
  let a := get_intelligent_assessment symptoms age (pyLower (pyOrS d.duration ""))
  let meds := get_medication_recommendations symptoms age
  let remedies := get_home_remedies symptoms
  let redFlags := get_red_flag_symptoms symptoms
  pyStrip ("\nMEDICAL INTAKE SUMMARY\nDate: " ++ now ++ "\n\nPATIENT INFORMATION:\nName: " ++ (pyOrS d.name "Not provided") ++ "\nAge: " ++ (pyOrIntS d.age "Not provided") ++ "\nGender: " ++ (pyOrS d.gender "Not provided") ++ "\n\nCHIEF COMPLAINT:\n" ++ (pyOrS d.symptoms "Not specified") ++ "\n\nHISTORY OF PRESENT ILLNESS:\n" ++ (toString age) ++ "-year-old " ++ (pyOrS d.gender "patient") ++ " presents with " ++ (pyOrS d.symptoms "symptoms") ++ " for " ++ (pyOrS d.duration "unspecified duration") ++ ". " ++ a.description ++ "\n\nCURRENT MEDICATIONS:\n" ++ (pyOrS d.medications "None reported") ++ "\n\nALLERGIES:\n" ++ (pyOrS d.allergies "None reported") ++ "\n\nCLINICAL ASSESSMENT:\n" ++ a.diagnosis ++ "\n\nRECOMMENDED MEDICATIONS:\n" ++ meds ++ "\n\nHOME REMEDIES & LIFESTYLE RECOMMENDATIONS:\n" ++ remedies ++ "\n\nWHEN TO SEEK IMMEDIATE CARE:\n" ++ redFlags ++ "\n\nFOLLOW-UP RECOMMENDATIONS:\n- Follow up with primary care physician within " ++ a.follow_up_timeline ++ "\n- Return if symptoms worsen or new symptoms develop\n- Expected improvement timeline: " ++ a.expected_improvement ++ "\n\nADDITIONAL NOTES:\n" ++ a.additional_notes ++ "\n        ")

/-- Python `[x] if x else []` for an optional string field. -/
def listIfTruthy (o : Option String) : List String :=
  match o with
  | some s => if s = "" then [] else [s]
  | none => []

/-- Python `[x] if x and x.lower() != 'none' else []`. -/
def listIfNotNoneSentinel (o : Option String) : List String :=
  match o with
  | some s => if s ≠ "" ∧ pyLower s ≠ "none" then [s] else []
  | none => []

/-- `AIService._generate_emergency_fallback_summary` (ai_service.py lines
1116-1135): the fixed minimal summary returned when summary assembly
raised. -/
def generate_emergency_fallback_summary (d : IntakeData) (now : String) :
    MedicalSummaryResponse :=
  { id := 1
    patient_id := 1
    summary_text := "Medical intake completed. Please review with healthcare provider."
    structured_data :=
      { chief_complaint := pyOrS d.symptoms "Not specified"
        symptoms := []
        duration := pyOrS d.duration "Not specified"
        severity := .moderate
        associated_symptoms := []
        medical_history := "Intake data available"
        current_medications := []
        allergies := []
        recommendations := ["Review with healthcare provider"] }
    icd_codes := []
    created_at := now }

/-- `AIService.generate_medical_summary` (ai_service.py lines 743-811).
The AI narrative call is the `ai` input; `constructionFails` models any
exception raised inside the outer `try` body (e.g. response-model
validation), which the source answers with the emergency fallback. -/
def generate_medical_summary (ai : Except Unit String) (constructionFails : Bool)
    (d : IntakeData) (now : String) : MedicalSummaryResponse :=
  if constructionFails then generate_emergency_fallback_summary d now
  else
    let ai_summary :=
      match ai with
      | .ok t => pyStrip t
      | .error _ => generate_intelligent_fallback_summary d now
    { id := 1
      patient_id := 1
      summary_text := ai_summary
      structured_data :=
        { chief_complaint := pyOrS d.symptoms "Not specified"
          symptoms := listIfTruthy d.symptoms
          duration := pyOrS d.duration "Not specified"
          severity := assess_severity d.symptoms d.duration
          associated_symptoms := []
          medical_history := "Patient reported chief complaint as documented"
          current_medications := listIfNotNoneSentinel d.medications
          allergies := listIfNotNoneSentinel d.allergies
          recommendations := generate_intelligent_recommendations d }
      icd_codes := []
      created_at := now }

/-- A concrete complete intake state used in counterexamples. -/
def sampleCompleteIntake : IntakeData :=
  { name := some "Sam", age := some 30, gender := some "male",
    symptoms := some "cough and cold", duration := some "3 days",
    medications := some "none", allergies := some "none",
    current_step := "summary" }

/- ===================== helper lemmas ===================== -/

set_option maxRecDepth 100000

lemma mem_dropWhile_of_neg {p : Char → Bool} {c : Char} (hpc : p c = false) :
    ∀ {l : List Char}, c ∈ l → c ∈ l.dropWhile p := by
  intro l
  induction l with
  | nil => intro h; exact absurd h (List.not_mem_nil c)
  | cons a t ih =>
    intro hl
    by_cases ha : p a = true
    · rw [List.dropWhile_cons_of_pos ha]
      rcases List.mem_cons.mp hl with h | h
      · subst h; rw [hpc] at ha; cases ha
      · exact ih h
    · rw [List.dropWhile_cons_of_neg ha]
      exact hl

lemma mem_pyStripL {c : Char} (hc : isSpaceChar c = false) {l : List Char}
    (h : c ∈ l) : c ∈ pyStripL l := by
  unfold pyStripL
  rw [List.mem_reverse]
  exact mem_dropWhile_of_neg hc (List.mem_reverse.mpr (mem_dropWhile_of_neg hc h))

lemma containsL_of_mem {c : Char} : ∀ {l : List Char}, c ∈ l → containsL [c] l = true := by
  intro l
  induction l with
  | nil => intro h; exact absurd h (List.not_mem_nil c)
  | cons a t ih =>
    intro hl
    unfold containsL
    rcases List.mem_cons.mp hl with h | h
    · subst h
      simp [List.isPrefixOf]
    · rw [ih h, Bool.or_true]

lemma fieldTruthy_name (data : MergedData) :
    fieldTruthy data "name" = truthyStr data.name := rfl

lemma fieldTruthy_age (data : MergedData) :
    fieldTruthy data "age" = truthyInt data.age := rfl

lemma fieldTruthy_gender (data : MergedData) :
    fieldTruthy data "gender" = truthyStr data.gender := rfl

lemma fieldTruthy_symptoms (data : MergedData) :
    fieldTruthy data "symptoms" = truthyStr data.symptoms := rfl

lemma fieldTruthy_duration (data : MergedData) :
    fieldTruthy data "duration" = truthyStr data.duration := rfl

lemma fieldTruthy_medications (data : MergedData) :
    fieldTruthy data "medications" = truthyStr data.medications := rfl

lemma fieldTruthy_allergies (data : MergedData) :
    fieldTruthy data "allergies" = truthyStr data.allergies := rfl

/- ===================== claim theorems ===================== -/

/-- Claim C1 counterexample: for the message "I have chest pain and need an
appointment" arriving at step `symptoms`, the turn handler flags the
emergency but the returned extraction result is NOT empty (the extractor
ran first and captured the message as the symptoms field), refuting the
claim that extraction is bypassed and the returned extraction is empty. -/
theorem emergency_turn_extraction_counterexample :
    (process_intake_message (Except.error ()) "I have chest pain and need an appointment"
      { current_step := "symptoms" }).is_emergency = true ∧
    (process_intake_message (Except.error ()) "I have chest pain and need an appointment"
      { current_step := "symptoms" }).extracted_data ≠ emptyExtraction := by
  refine ⟨by decide, by decide⟩

/-- Claim C1 (amended): for every message containing an emergency keyword
and every prior IntakeState, the turn handler returns is_emergency=true
and the fixed emergency-alert template (echoing the lower-cased message),
bypassing the AI call (the result is independent of the AI outcome); the
extractor still runs and its raw result for the current step (greeting
marker included) is returned, so the returned extraction need not be
empty. -/
theorem emergency_turn_amended :
    ∀ (ai aiAlt : Except Unit String) (message : String) (current_data : IntakeData),
      emergencyCheck message = true →
      (process_intake_message ai message current_data).response = emergency_template message ∧
      (process_intake_message ai message current_data).is_emergency = true ∧
      (process_intake_message ai message current_data).extracted_data =
        smart_extract_data message current_data.current_step ∧
      process_intake_message ai message current_data =
        process_intake_message aiAlt message current_data := by
  intro ai aiAlt message d h
  have hres : ∀ x : Except Unit String, process_intake_message x message d =
      { response := emergency_template message
        extracted_data := smart_extract_data message d.current_step
        next_step := determine_next_step_from_data
          (mergeData d (smart_extract_data message d.current_step))
        is_emergency := true } := by
    intro x
    unfold process_intake_message
    simp [h]
  refine ⟨by rw [hres], by rw [hres], by rw [hres], by rw [hres, hres]⟩

theorem emergency_turn_amended_witness :
    emergencyCheck "I have chest pain" = true ∧
    (process_intake_message (Except.error ()) "I have chest pain"
      { current_step := "name" }).response = emergency_template "I have chest pain" :=
  ⟨by decide,
   (emergency_turn_amended (Except.error ()) (Except.ok "x") "I have chest pain"
     { current_step := "name" } (by decide)).1⟩

/-- Claim C2: the step resolver is a pure function of the field set
(matching the spec-side walk of the fixed order, greeting forcing
`name`, `summary` when all fields are set), it is independent of the
caller-supplied current_step, and on fields containing name "Sam" and
age 30 it returns "gender" for every current_step. -/
theorem step_resolver_pure :
    (∀ data : MergedData, determine_next_step_from_data data = spec_next_step data) ∧
    (∀ (data : MergedData) (cs csAlt : String),
      determine_next_step_from_data { data with current_step := cs } =
        determine_next_step_from_data { data with current_step := csAlt }) ∧
    (∀ cs : String,
      determine_next_step_from_data
        { name := some "Sam", age := some 30, gender := none, symptoms := none,
          duration := none, medications := none, allergies := none,
          current_step := cs, is_greeting := false } = "gender") := by
  refine ⟨?_, ?_, ?_⟩
  · intro data
    unfold determine_next_step_from_data spec_next_step
    cases hg : data.is_greeting
    · cases h1 : truthyStr data.name <;> cases h2 : truthyInt data.age <;>
      cases h3 : truthyStr data.gender <;> cases h4 : truthyStr data.symptoms <;>
      cases h5 : truthyStr data.duration <;> cases h6 : truthyStr data.medications <;>
      cases h7 : truthyStr data.allergies <;>
      simp [stepOrder, List.find?, fieldTruthy_name, fieldTruthy_age,
            fieldTruthy_gender, fieldTruthy_symptoms, fieldTruthy_duration,
            fieldTruthy_medications, fieldTruthy_allergies,
            h1, h2, h3, h4, h5, h6, h7]
    · simp
  · intro data cs csAlt
    rfl
  · intro cs
    rfl

/-- Claim C3 (code bug): the reachable code of
`_get_enhanced_contextual_response` returns the bare step templates; for
each of the steps symptoms, duration, medications, allergies (greeting
marker absent) the returned text does NOT contain the disclaimer phrase
"not a diagnosis" — the disclaimer-appending block at lines 425-431 sits
after the unconditional return at line 423 and never executes. -/
theorem enhanced_response_missing_disclaimer :
    (["symptoms", "duration", "medications", "allergies"] : List String).all
      (fun step => !(pyIn "not a diagnosis" (pyLower
        (get_enhanced_contextual_response "I have a cough" { current_step := "gender" }
          step emptyExtraction)))) = true := by
  decide

/-- Claim C4: whenever summary construction raises (modelled by the
`constructionFails` flag), `generate_medical_summary` returns the minimal
emergency-fallback summary, whose narrative text is exactly "Medical
intake completed. Please review with healthcare provider.", whose symptom
list is empty, whose severity is moderate and whose recommendations are
["Review with healthcare provider"]; being a total function, this
fallback path always yields a summary. -/
theorem synthesis_failure_fallback :
    ∀ (d : IntakeData) (ai : Except Unit String) (now : String),
      generate_medical_summary ai true d now = generate_emergency_fallback_summary d now ∧
      (generate_medical_summary ai true d now).summary_text =
        "Medical intake completed. Please review with healthcare provider." ∧
      (generate_medical_summary ai true d now).structured_data.symptoms = ([] : List String) ∧
      (generate_medical_summary ai true d now).structured_data.severity = Severity.moderate ∧
      (generate_medical_summary ai true d now).structured_data.recommendations =
        ["Review with healthcare provider"] :=
  fun _ _ _ => ⟨rfl, rfl, rfl, rfl, rfl⟩

/-- Claim C5 counterexample: a successful AI reply during an intake turn
that contains neither "not a diagnosis" nor "consult" is returned
UNCHANGED (no disclaimer appended), because the intake path additionally
requires a medical keyword before appending — refuting the claim that
the disclaimer is always appended in that situation. -/
theorem intake_disclaimer_counterexample :
    (process_intake_message (Except.ok "Thanks for telling me. What is your age?") "30"
      { current_step := "age" }).response = "Thanks for telling me. What is your age?" ∧
    pyIn "not a diagnosis" (pyLower "Thanks for telling me. What is your age?") = false ∧
    pyIn "consult" (pyLower "Thanks for telling me. What is your age?") = false ∧
    "Thanks for telling me. What is your age?" ≠
      "Thanks for telling me. What is your age?" ++ disclaimer_suffix := by
  refine ⟨by decide, by decide, by decide, by decide⟩

/-- Claim C5 (amended): on a successful AI reply during a non-emergency
intake turn, the fixed disclaimer is appended if and only if the stripped
reply contains a medical keyword (symptom, pain, medical, health,
condition) AND contains neither "not a diagnosis" nor "consult"
(case-insensitively); otherwise the reply is returned unchanged.  (The
general conversation handler `intelligent_medical_conversation` applies
the unconditional rule `conversation_disclaimer_post`.) -/
theorem intake_disclaimer_amended :
    ∀ (raw message : String) (current_data : IntakeData),
      emergencyCheck message = false →
      (process_intake_message (Except.ok raw) message current_data).response =
        (if medical_words.any (fun w => pyIn w (pyLower (pyStrip raw)))
            && !(pyIn "not a diagnosis" (pyLower (pyStrip raw)))
            && !(pyIn "consult" (pyLower (pyStrip raw)))
         then pyStrip raw ++ disclaimer_suffix else pyStrip raw) := by
  intro raw message d h
  have hres : (process_intake_message (Except.ok raw) message d).response =
      intake_disclaimer_post (pyStrip raw) := by
    unfold process_intake_message
    simp [h, get_intelligent_intake_response]
  rw [hres]
  unfold intake_disclaimer_post
  cases h1 : medical_words.any (fun w => pyIn w (pyLower (pyStrip raw))) <;>
  cases h2 : pyIn "not a diagnosis" (pyLower (pyStrip raw)) <;>
  cases h3 : pyIn "consult" (pyLower (pyStrip raw)) <;>
  simp [h1, h2, h3]

theorem intake_disclaimer_amended_witness :
    emergencyCheck "45" = false ∧
    (process_intake_message (Except.ok "The pain may be muscular.") "45"
      { current_step := "age" }).response =
      (if medical_words.any (fun w => pyIn w (pyLower (pyStrip "The pain may be muscular.")))
          && !(pyIn "not a diagnosis" (pyLower (pyStrip "The pain may be muscular.")))
          && !(pyIn "consult" (pyLower (pyStrip "The pain may be muscular.")))
       then pyStrip "The pain may be muscular." ++ disclaimer_suffix
       else pyStrip "The pain may be muscular.") :=
  ⟨by decide,
   intake_disclaimer_amended "The pain may be muscular." "45"
     { current_step := "age" } (by decide)⟩

/-- Claim C6: at step age, extraction scans the message for the first run
of decimal digits and sets age to the parsed integer iff it lies in
[1,150]; no other digit run is tried, any other outcome yields an empty
extraction; "200" yields no extraction and "45 years" yields age 45. -/
theorem age_extraction_range :
    (∀ (message : String) (n : Int), firstDigitRunInt message = some n →
      smart_extract_data message "age" =
        (if 1 ≤ n ∧ n ≤ 150 then { age := some n } else emptyExtraction)) ∧
    (∀ message : String, firstDigitRunInt message = none →
      smart_extract_data message "age" = emptyExtraction) ∧
    smart_extract_data "200" "age" = emptyExtraction ∧
    smart_extract_data "45 years" "age" = { age := some 45 } := by
  have hstep : ∀ message : String, smart_extract_data message "age" =
      (match firstDigitRunInt message with
       | some n => if 1 ≤ n ∧ n ≤ 150 then { age := some n } else emptyExtraction
       | none => emptyExtraction) := fun _ => rfl
  refine ⟨?_, ?_, by decide, by decide⟩
  · intro message n h
    rw [hstep, h]
  · intro message h
    rw [hstep, h]

theorem age_extraction_range_witness :
    firstDigitRunInt "45 years" = some 45 ∧
    smart_extract_data "45 years" "age" =
      (if (1 : Int) ≤ 45 ∧ (45 : Int) ≤ 150 then { age := some 45 } else emptyExtraction) :=
  ⟨by decide, age_extraction_range.1 "45 years" 45 (by decide)⟩

/-- Claim C7 counterexample: with the AI path disabled, two synthesize
calls on the identical complete IntakeState but different clock readings
produce DIFFERENT narrative summary text (the rule-based summary embeds
the generation timestamp), refuting byte-identical StructuredSummary
content as a function of the IntakeState alone. -/
theorem synthesize_clock_counterexample :
    (generate_medical_summary (Except.error ()) false sampleCompleteIntake
      "2025-01-01 10:00").summary_text ≠
    (generate_medical_summary (Except.error ()) false sampleCompleteIntake
      "2025-01-01 10:01").summary_text := by
  decide

/-- Claim C7 (amended): with the AI path disabled, synthesize is a
deterministic function of the IntakeState and the clock reading; the
structured_data component is byte-identical across calls regardless of
the clock, while the narrative summary text embeds the timestamp and so
is byte-identical only for calls seeing the same clock string. -/
theorem synthesize_rule_based_deterministic :
    ∀ (d : IntakeData) (now nowAlt : String),
      (generate_medical_summary (Except.error ()) false d now).structured_data =
      (generate_medical_summary (Except.error ()) false d nowAlt).structured_data :=
  fun _ _ _ => rfl

/-- Claim C8 counterexample: with name, age and gender validly set and
symptoms equal to the sentinel "none", the resolver does NOT return
symptoms — it advances to duration, because it tests Python truthiness
only and "none" is a non-empty (truthy) string. -/
theorem sentinel_symptoms_counterexample :
    determine_next_step_from_data
      { name := some "Sam", age := some 30, gender := some "male",
        symptoms := some "none", duration := none, medications := none,
        allergies := none, current_step := "symptoms", is_greeting := false } ≠ "symptoms" ∧
    determine_next_step_from_data
      { name := some "Sam", age := some 30, gender := some "male",
        symptoms := some "none", duration := none, medications := none,
        allergies := none, current_step := "symptoms", is_greeting := false } = "duration" := by
  refine ⟨by decide, by decide⟩

/-- Claim C8 (amended): a free-text field holding the sentinel "none"
counts as SET for the step resolver (which tests only truthiness): for
every field set in which name, age and gender are validly set, symptoms
equals "none" and duration is unset, the resolver returns duration,
advancing past the sentinel-valued free-text field. -/
theorem sentinel_symptoms_amended :
    ∀ data : MergedData,
      data.is_greeting = false →
      truthyStr data.name = true → truthyInt data.age = true →
      truthyStr data.gender = true → data.symptoms = some "none" →
      truthyStr data.duration = false →
      determine_next_step_from_data data = "duration" := by
  intro data hg hn ha hgen hs hd
  have hsym : truthyStr data.symptoms = true := by rw [hs]; decide
  unfold determine_next_step_from_data
  simp [hg, hn, ha, hgen, hsym, hd]

theorem sentinel_symptoms_amended_witness :
    determine_next_step_from_data
      { name := some "Ann", age := some 40, gender := some "female",
        symptoms := some "none", duration := none, medications := none,
        allergies := none, current_step := "duration", is_greeting := false } = "duration" :=
  sentinel_symptoms_amended _ (by decide) (by decide) (by decide) (by decide)
    (by decide) (by decide)

/-- Claim C9: for every next_step value (including summary and complete),
the fallback response generator applied to an extraction result with the
is_greeting marker set returns the fixed welcome-and-ask-name template. -/
theorem greeting_fallback_welcome :
    ∀ (next_step message : String) (current_data : IntakeData)
      (extracted : ExtractionResult),
      extracted.is_greeting = true →
      get_enhanced_contextual_response message current_data next_step extracted =
        welcome_template := by
  intro ns message d e h
  unfold get_enhanced_contextual_response
  rw [h]
  simp

theorem greeting_fallback_welcome_witness :
    get_enhanced_contextual_response "hello" { current_step := "name" } "summary"
      { is_greeting := true } = welcome_template :=
  greeting_fallback_welcome "summary" "hello" { current_step := "name" }
    { is_greeting := true } rfl

/-- Claim C10: the male-indicating word list includes the single letter
"m" and is tested before the female and other lists by case-insensitive
substring matching, so every message whose lower-cased text contains the
letter m — including "female" and "woman" — extracts gender "male". -/
theorem gender_m_forces_male :
    (∀ message : String, 'm' ∈ pyLowerL message.data →
      smart_extract_data message "gender" = { gender := some "male" }) ∧
    smart_extract_data "female" "gender" = { gender := some "male" } ∧
    smart_extract_data "woman" "gender" = { gender := some "male" } := by
  refine ⟨?_, by decide, by decide⟩
  intro message hm
  have hmem : 'm' ∈ (pyLowerStrip message).data :=
    mem_pyStripL (by decide) hm
  have hone : pyIn "m" (pyLowerStrip message) = true := containsL_of_mem hmem
  have hany : maleWords.any (fun w => pyIn w (pyLowerStrip message)) = true :=
    List.any_eq_true.mpr ⟨"m", by decide, hone⟩
  have hstep : smart_extract_data message "gender" =
      (if maleWords.any (fun w => pyIn w (pyLowerStrip message)) then
        ({ gender := some "male" } : ExtractionResult)
      else if femaleWords.any (fun w => pyIn w (pyLowerStrip message)) then
        { gender := some "female" }
      else if otherGenderWords.any (fun w => pyIn w (pyLowerStrip message)) then
        { gender := some "other" }
      else emptyExtraction) := rfl
  rw [hstep, hany]
  rfl

theorem gender_m_forces_male_witness :
    'm' ∈ pyLowerL ("female".data) ∧
    smart_extract_data "female" "gender" = { gender := some "male" } :=
  ⟨by decide, gender_m_forces_male.1 "female" (by decide)⟩

end MedQ
